import Mathlib

/-!
Shallow embedding of `src/lambda_function.py` (sample-lambda-python).

The Python module implements an AWS Lambda handler:
  * `LambdaEvent` — pydantic event validation (fields `name`, `operation`,
    `metadata`, all optional with defaults);
  * `LambdaResponse` — response envelope (statusCode, headers, body);
  * `get_system_info` — collects environment metadata, with a single
    try/except returning a fallback record on failure;
  * `perform_health_check` — runs an S3 check and an external-connectivity
    check, aggregating statuses into a record;
  * `lambda_handler` — validates, dispatches on `operation`, builds the
    envelope, and converts any exception into a 500 error envelope.

Nondeterministic ambient state (clock, timezone, environment variables,
uuid generation, network/AWS outcomes) is passed explicitly as environment
records (`SysEnv`, `HealthEnv`, `LambdaEnv`); exceptions raised by the
Python runtime are modelled as outcome fields of those records, and
`json.dumps` is modelled by an executable JSON printer.
-/

/-- JSON-like Python values: the payloads that flow through the handler
(event field values, response bodies). Numbers are modelled as integers;
no floating-point value occurs in this program's own data. -/
inductive Json where
  | null : Json
  | bool : Bool → Json
  | num : Int → Json
  | str : String → Json
  | arr : List Json → Json
  | obj : List (String × Json) → Json

/-- First-match association-list lookup, i.e. Python `dict` access on the
key lists we use to model dicts (insertion order preserved, keys unique in
all dicts this program builds). -/
def lookupKey {α : Type} : List (String × α) → String → Option α
  | [], _ => none
  | (k, v) :: rest, key => if k = key then some v else lookupKey rest key

/-- Field access on a JSON object; `none` on non-objects or missing keys. -/
def Json.lookup : Json → String → Option Json
  | .obj fields, key => lookupKey fields key
  | _, _ => none

/-- Key list of a JSON object (Python `dict.keys()` order). -/
def Json.keys : Json → List String
  | .obj fields => fields.map Prod.fst
  | _ => []

/-- Is this value a JSON object (a Python mapping)? -/
def Json.isObj : Json → Bool
  | .obj _ => true
  | _ => false

/-- Is this value JSON null (Python `None`)? -/
def Json.isNull : Json → Bool
  | .null => true
  | _ => false

/-- Lower-case hex digit, as produced by Python's `json` escapes. -/
def hexDigitChar (n : Nat) : Char :=
  if n < 10 then Char.ofNat (48 + n) else Char.ofNat (87 + n)

/-- Four-digit hex rendering used in `\uXXXX` escapes. -/
def hex4 (n : Nat) : String :=
  String.mk [hexDigitChar (n / 4096 % 16), hexDigitChar (n / 256 % 16),
             hexDigitChar (n / 16 % 16), hexDigitChar (n % 16)]

/-- Escape one character the way `json.dumps` (default `ensure_ascii=True`)
does inside a string literal. -/
def jsonEscapeChar (c : Char) : String :=
  if c = '"' then "\\\""
  else if c = '\\' then "\\\\"
  else if c = '\n' then "\\n"
  else if c = '\r' then "\\r"
  else if c = '\t' then "\\t"
  else if c = '\x08' then "\\b"
  else if c = '\x0c' then "\\f"
  else if c.val < 0x20 then "\\u" ++ hex4 c.val.toNat
  else if c.val ≤ 0x7e then String.singleton c
  else if c.val ≤ 0xffff then "\\u" ++ hex4 c.val.toNat
  else
    let v := c.val.toNat - 0x10000
    "\\u" ++ hex4 (0xd800 + v / 0x400) ++ "\\u" ++ hex4 (0xdc00 + v % 0x400)

/-- A JSON string literal with quotes and escapes, as `json.dumps` writes it. -/
def jsonQuote (s : String) : String :=
  "\"" ++ String.join (s.data.map jsonEscapeChar) ++ "\""

/-- `k` spaces, for `json.dumps(..., indent=n)` indentation. -/
def spaces (k : Nat) : String :=
  String.mk (List.replicate k ' ')

/-- Separator between collection items: `", "` in compact mode, newline plus
indentation when an indent width is given (Python `json.dumps` layout). -/
def jsonSep (ind : Option Nat) (lvl : Nat) : String :=
  match ind with
  | none => ", "
  | some n => ",\n" ++ spaces (n * lvl)

mutual
/-- `json.dumps` of one value: `ind = none` is the compact default used for
the error envelope, `ind = some n` is `indent=n` as used for success bodies;
`lvl` is the current nesting depth. -/
def json_dumpVal (ind : Option Nat) (lvl : Nat) : Json → String
  | .null => "null"
  | .bool b => cond b "true" "false"
  | .num n => toString n
  | .str s => jsonQuote s
  | .arr [] => "[]"
  | .arr (x :: xs) =>
    match ind with
    | none => "[" ++ json_dumpVal none lvl x ++ json_dumpRestA none lvl xs ++ "]"
    | some n =>
      "[\n" ++ spaces (n * (lvl + 1)) ++ json_dumpVal (some n) (lvl + 1) x ++
        json_dumpRestA (some n) (lvl + 1) xs ++ "\n" ++ spaces (n * lvl) ++ "]"
  | .obj [] => "\x7b\x7d"
  | .obj ((k, v) :: ps) =>
    match ind with
    | none =>
      "\x7b" ++ jsonQuote k ++ ": " ++ json_dumpVal none lvl v ++
        json_dumpRestO none lvl ps ++ "\x7d"
    | some n =>
      "\x7b\n" ++ spaces (n * (lvl + 1)) ++ jsonQuote k ++ ": " ++
        json_dumpVal (some n) (lvl + 1) v ++ json_dumpRestO (some n) (lvl + 1) ps ++
        "\n" ++ spaces (n * lvl) ++ "\x7d"

/-- Remaining array items after the first. -/
def json_dumpRestA (ind : Option Nat) (lvl : Nat) : List Json → String
  | [] => ""
  | x :: xs => jsonSep ind lvl ++ json_dumpVal ind lvl x ++ json_dumpRestA ind lvl xs

/-- Remaining object entries after the first. -/
def json_dumpRestO (ind : Option Nat) (lvl : Nat) : List (String × Json) → String
  | [] => ""
  | (k, v) :: ps =>
    jsonSep ind lvl ++ jsonQuote k ++ ": " ++ json_dumpVal ind lvl v ++
      json_dumpRestO ind lvl ps
end

/-- `json.dumps(j)` when `ind = none`, `json.dumps(j, indent=n)` when
`ind = some n`. -/
def json_dumps (j : Json) (ind : Option Nat) : String :=
  json_dumpVal ind 0 j

/-- `__version__ = "1.1.0"` (line 26). -/
def __version__ : String := "1.1.0"

/-- Validated event record, mirroring the pydantic model `LambdaEvent`
(lines 33–37): `name: Optional[str] = "World"`,
`operation: Optional[str] = "greeting"`,
`metadata: Optional[Dict[str, Any]] = dict()`. An `Option` value of `none`
models Python `None` supplied explicitly for the field. -/
structure LambdaEvent where
  name : Option String
  operation : Option String
  metadata : Option (List (String × Json))

/-- Response envelope, mirroring the pydantic model `LambdaResponse`
(lines 40–47): statusCode, headers, JSON-encoded body string. -/
structure LambdaResponse where
  statusCode : Int
  headers : List (String × String)
  body : String

/-- Default headers of `LambdaResponse` (lines 43–46). -/
def defaultHeaders : List (String × String) :=
  [("Content-Type", "application/json"), ("Access-Control-Allow-Origin", "*")]

/-- The raw input event: an untyped string-keyed mapping, per the handler
signature `event: Dict[str, Any]` (line 121). -/
abbrev Event := List (String × Json)

/-- Pydantic validation of one `Optional[str]` field with a string default:
absent key ⇒ the default; explicit `None` ⇒ `none`; a string ⇒ itself; any
other value fails validation (pydantic v2 does not coerce non-strings to a
`str` field). The error message is modelled abstractly by the field name;
the code never inspects its content. -/
def validateOptStr (field dflt : String) (event : Event) : Except String (Option String) :=
  match lookupKey event field with
  | none => .ok (some dflt)
  | some .null => .ok none
  | some (.str s) => .ok (some s)
  | some _ => .error ("validation error for LambdaEvent: " ++ field)

/-- Pydantic validation of `metadata: Optional[Dict[str, Any]]` with
`default_factory=dict`: absent ⇒ empty dict; explicit `None` ⇒ `none`;
a mapping ⇒ itself; anything else fails validation. -/
def validateMetadata (event : Event) : Except String (Option (List (String × Json))) :=
  match lookupKey event "metadata" with
  | none => .ok (some [])
  | some .null => .ok none
  | some (.obj m) => .ok (some m)
  | some _ => .error "validation error for LambdaEvent: metadata"

/-- `LambdaEvent(**event)` (line 135): validate all three fields; extra
event keys are ignored (pydantic default). A failure models the
`ValidationError` raised there (pydantic reports all failing fields in one
error; since the code never inspects the message, a first-failure message
is an adequate model). -/
def validateEvent (event : Event) : Except String LambdaEvent :=
  match validateOptStr "name" "World" event with
  | .error e => .error e
  | .ok name =>
    match validateOptStr "operation" "greeting" event with
    | .error e => .error e
    | .ok operation =>
      match validateMetadata event with
      | .error e => .error e
      | .ok metadata => .ok { name := name, operation := operation, metadata := metadata }

/-- Ambient state read by `get_system_info` (lines 60–81). `ok = false`
models the `try` body raising (e.g. timezone resolution failing); the
`Option String` fields are the `AWS_*` environment variables (`none` when
unset); `sysRequestId` is the `str(uuid.uuid4())` drawn in this call. -/
structure SysEnv where
  ok : Bool
  timestampUtc : String
  timestampLocal : String
  pythonVersion : String
  awsRegion : Option String
  lambdaRuntime : Option String
  memorySize : Option String
  sysRequestId : String

/-- `get_system_info` (lines 60–81): builds the system-info dict, with
`"unknown"` defaults for unset environment variables; any exception in the
body is caught and replaced by the fallback error record. -/
def get_system_info (env : SysEnv) : Json :=
  if env.ok then
    Json.obj [
      ("timestamp_utc", .str env.timestampUtc),
      ("timestamp_local", .str env.timestampLocal),
      ("python_version", .str ("Python " ++ env.pythonVersion)),
      ("aws_region", .str (env.awsRegion.getD "unknown")),
      ("lambda_runtime", .str (env.lambdaRuntime.getD "unknown")),
      ("memory_size", .str (env.memorySize.getD "unknown")),
      ("request_id", .str env.sysRequestId)]
  else
    Json.obj [("error", .str "Failed to retrieve system information")]

/-- Outcome of the external-connectivity probe
`requests.get("https://httpbin.org/status/200", timeout=5)` (line 105):
the call returns with some HTTP status code, raises
`requests.RequestException` (caught at line 110), or raises some other
exception (not caught by that clause, so it escapes to the outer handler
at line 113). -/
inductive ExtOutcome where
  | status : Int → ExtOutcome
  | reqExn : String → ExtOutcome
  | otherExn : String → ExtOutcome

/-- Does the external probe raise past its local handler? -/
def ExtOutcome.isOtherExn : ExtOutcome → Bool
  | .otherExn _ => true
  | _ => false

/-- Ambient outcomes of one run of `perform_health_check`:
`clientsExn` is `some msg` when `get_aws_clients()` (line 93) raises,
`s3Exn` is `some msg` when `s3.list_buckets()` (line 97) raises,
`ext` is the outcome of the external-connectivity request. -/
structure HealthEnv where
  clientsExn : Option String
  s3Exn : Option String
  ext : ExtOutcome

/-- Result record built by `perform_health_check`: the `healthy` flag, the
per-check status strings in insertion order, and the `error` key set only
by the outer exception handler (line 116). -/
structure HealthResult where
  healthy : Bool
  checks : List (String × String)
  error : Option String
deriving DecidableEq

/-- `perform_health_check` (lines 84–118), translated branch by branch:
a `get_aws_clients` failure hits the outer handler with no checks recorded;
an S3 failure records `"error: …"` and sets `healthy = False` (lines
100–101); the external check records `"healthy"`, `"http_error: …"` or
`"network_error: …"` — note the code does NOT touch `healthy` in the two
external-failure branches (lines 108–111); a non-`RequestException` from
the external call reaches the outer handler (lines 113–116), which sets
`healthy = False` and an `error` entry. -/
def perform_health_check (env : HealthEnv) : HealthResult :=
  match env.clientsExn with
  | some e => { healthy := false, checks := [], error := some e }
  | none =>
    let s3Entry : String × Bool :=
      match env.s3Exn with
      | none => ("healthy", true)
      | some e => ("error: " ++ e, false)
    let checks0 : List (String × String) := [("aws_s3", s3Entry.1)]
    match env.ext with
    | .status code =>
      { healthy := s3Entry.2,
        checks := checks0 ++
          [("external_connectivity",
            if code = 200 then "healthy" else "http_error: " ++ toString code)],
        error := none }
    | .reqExn e =>
      { healthy := s3Entry.2,
        checks := checks0 ++ [("external_connectivity", "network_error: " ++ e)],
        error := none }
    | .otherExn e =>
      { healthy := false, checks := checks0, error := some e }

/-- The health-status record as a JSON value, in the dict order the code
produces: `healthy`, `checks`, then `error` when the outer handler added
it (line 116). -/
def healthResultJson (r : HealthResult) : Json :=
  Json.obj ([("healthy", .bool r.healthy),
             ("checks", .obj (r.checks.map fun p => (p.1, Json.str p.2)))] ++
            (match r.error with
             | none => []
             | some e => [("error", Json.str e)]))

/-- Invocation context, exposing the attributes the handler reads
(`aws_request_id` at line 125, `function_name` at lines 131/160). -/
structure Context where
  aws_request_id : String
  function_name : String

/-- All ambient nondeterminism of one `lambda_handler` invocation:
system-info state, health-check outcomes, and the `str(uuid.uuid4())`
drawn at line 125 when no context is supplied. -/
structure LambdaEnv where
  sys : SysEnv
  health : HealthEnv
  freshUuid : String

/-- Line 125: `context.aws_request_id if context else str(uuid.uuid4())`. -/
def requestId (ctx : Option Context) (env : LambdaEnv) : String :=
  match ctx with
  | some c => c.aws_request_id
  | none => env.freshUuid

/-- Python `f"Hello, {validated_event.name}!"` interpolates `None` as the
string `"None"`. -/
def pyStr (s : Option String) : String :=
  match s with
  | some s => s
  | none => "None"

/-- An `Optional[str]` value as JSON (`None` serializes to `null`). -/
def optStrJson : Option String → Json
  | none => .null
  | some s => .str s

/-- Lines 159–161: `context.function_name if context else "lambda-test-python"`. -/
def functionNameOf : Option Context → String
  | some c => c.function_name
  | none => "lambda-test-python"

/-- The greeting-branch response body (lines 152–164), in dict order. -/
def greetingResponseBody (ve : LambdaEvent) (ctx : Option Context) (env : LambdaEnv) : Json :=
  Json.obj [
    ("message", .str ("Hello, " ++ pyStr ve.name ++ "!")),
    ("operation", optStrJson ve.operation),
    ("system", get_system_info env.sys),
    ("version", .str __version__),
    ("function_name", .str (functionNameOf ctx)),
    ("request_id", .str (requestId ctx env)),
    ("metadata", match ve.metadata with
      | none => .null
      | some m => .obj m)]

/-- The health-branch response body (lines 143–151), in dict order. -/
def healthResponseBody (env : LambdaEnv) : Json :=
  Json.obj [
    ("message", .str "Health check completed"),
    ("health", healthResultJson (perform_health_check env.health)),
    ("system", get_system_info env.sys),
    ("version", .str __version__)]

/-- The error response body built in the `except` handler (lines 187–192). -/
def errorResponseBody (msg rid : String) : Json :=
  Json.obj [
    ("error", .str "Internal server error"),
    ("message", .str msg),
    ("request_id", .str rid),
    ("version", .str __version__)]

/-- Status code and (pre-serialization) body of one `lambda_handler`
invocation: validation, dispatch on `operation == "health"` (line 143,
everything else falling to the greeting branch), and the single top-level
exception handler producing the 500 envelope (lines 178–195). -/
def handlerResult (event : Event) (ctx : Option Context) (env : LambdaEnv) : Int × Json :=
  match validateEvent event with
  | .ok ve =>
    (200, if ve.operation = some "health"
          then healthResponseBody env
          else greetingResponseBody ve ctx env)
  | .error msg => (500, errorResponseBody msg (requestId ctx env))

/-- `lambda_handler` (lines 121–195): wraps the body in the
`LambdaResponse` envelope; the success path serializes with `indent=2`
(line 169), the error path with the compact default (line 187), and the
status code is 200 exactly on the success path. -/
def lambda_handler (event : Event) (ctx : Option Context) (env : LambdaEnv) : LambdaResponse :=
  let r := handlerResult event ctx env
  { statusCode := r.1,
    headers := defaultHeaders,
    body := json_dumps r.2 (if r.1 = 200 then some 2 else none) }

/-! ### Helper lemmas -/

theorem validateEvent_ok_fields {event : Event} {ve : LambdaEvent}
    (h : validateEvent event = .ok ve) :
    validateOptStr "name" "World" event = .ok ve.name ∧
    validateOptStr "operation" "greeting" event = .ok ve.operation ∧
    validateMetadata event = .ok ve.metadata := by
  unfold validateEvent at h
  cases h1 : validateOptStr "name" "World" event with
  | error e => rw [h1] at h; exact absurd h (by simp)
  | ok a =>
    rw [h1] at h
    cases h2 : validateOptStr "operation" "greeting" event with
    | error e => rw [h2] at h; exact absurd h (by simp)
    | ok b =>
      rw [h2] at h
      cases h3 : validateMetadata event with
      | error e => rw [h3] at h; exact absurd h (by simp)
      | ok c =>
        rw [h3] at h
        simp only [Except.ok.injEq] at h
        subst h
        exact ⟨rfl, rfl, rfl⟩

theorem validateOptStr_absent (field dflt : String) (event : Event)
    (h : lookupKey event field = none) :
    validateOptStr field dflt event = .ok (some dflt) := by
  unfold validateOptStr
  rw [h]

theorem validateOptStr_str (field dflt : String) (event : Event) (s : String)
    (h : lookupKey event field = some (.str s)) :
    validateOptStr field dflt event = .ok (some s) := by
  unfold validateOptStr
  rw [h]

theorem validateOptStr_null (field dflt : String) (event : Event)
    (h : lookupKey event field = some .null) :
    validateOptStr field dflt event = .ok none := by
  unfold validateOptStr
  rw [h]

theorem validateEvent_metadata_bad {event : Event} {j : Json}
    (h : lookupKey event "metadata" = some j)
    (hobj : j.isObj = false) (hnull : j.isNull = false) :
    ∃ msg, validateEvent event = .error msg := by
  have hm : validateMetadata event = .error "validation error for LambdaEvent: metadata" := by
    unfold validateMetadata
    rw [h]
    cases j <;> simp_all [Json.isObj, Json.isNull]
  unfold validateEvent
  cases h1 : validateOptStr "name" "World" event with
  | error e => exact ⟨e, rfl⟩
  | ok a =>
    cases h2 : validateOptStr "operation" "greeting" event with
    | error e => exact ⟨e, rfl⟩
    | ok b => rw [hm]; exact ⟨_, rfl⟩

theorem greeting_lookup_message (ve : LambdaEvent) (ctx : Option Context) (env : LambdaEnv) :
    (greetingResponseBody ve ctx env).lookup "message" =
      some (.str ("Hello, " ++ pyStr ve.name ++ "!")) := rfl

theorem greeting_lookup_function_name (ve : LambdaEvent) (ctx : Option Context) (env : LambdaEnv) :
    (greetingResponseBody ve ctx env).lookup "function_name" =
      some (.str (functionNameOf ctx)) := rfl

theorem greeting_lookup_request_id (ve : LambdaEvent) (ctx : Option Context) (env : LambdaEnv) :
    (greetingResponseBody ve ctx env).lookup "request_id" =
      some (.str (requestId ctx env)) := rfl

theorem health_lookup_message (env : LambdaEnv) :
    (healthResponseBody env).lookup "message" =
      some (.str "Health check completed") := rfl

theorem health_lookup_function_name (env : LambdaEnv) :
    (healthResponseBody env).lookup "function_name" = none := rfl

theorem health_lookup_request_id (env : LambdaEnv) :
    (healthResponseBody env).lookup "request_id" = none := rfl

theorem error_lookup_error (msg rid : String) :
    (errorResponseBody msg rid).lookup "error" =
      some (.str "Internal server error") := rfl

theorem error_lookup_message (msg rid : String) :
    (errorResponseBody msg rid).lookup "message" = some (.str msg) := rfl

theorem error_lookup_request_id (msg rid : String) :
    (errorResponseBody msg rid).lookup "request_id" = some (.str rid) := rfl

theorem handlerResult_ok {event : Event} {ve : LambdaEvent}
    (ctx : Option Context) (env : LambdaEnv) (h : validateEvent event = .ok ve) :
    handlerResult event ctx env =
      (200, if ve.operation = some "health"
            then healthResponseBody env
            else greetingResponseBody ve ctx env) := by
  unfold handlerResult
  rw [h]

theorem handlerResult_error {event : Event} {msg : String}
    (ctx : Option Context) (env : LambdaEnv) (h : validateEvent event = .error msg) :
    handlerResult event ctx env = (500, errorResponseBody msg (requestId ctx env)) := by
  unfold handlerResult
  rw [h]

/-! ### Concrete fixtures used by witnesses and counterexamples -/

/-- A concrete invocation context, as the repository's tests build one. -/
def ctx0 : Context := { aws_request_id := "test-request-id", function_name := "lambda-test-python" }

/-- A concrete ambient environment for one invocation. -/
def env0 : LambdaEnv := {
  sys := { ok := true, timestampUtc := "2026-10-12T00:00:00+00:00",
           timestampLocal := "2026-10-12T02:00:00+02:00",
           pythonVersion := "3.12.0", awsRegion := some "eu-west-1",
           lambdaRuntime := none, memorySize := none,
           sysRequestId := "11111111-1111-1111-1111-111111111111" },
  health := { clientsExn := none, s3Exn := none, ext := .status 200 },
  freshUuid := "22222222-2222-2222-2222-222222222222" }

/-! ### Claims -/

/-- C1: for every input event and any context (present or absent), the
handler returns an envelope whose statusCode is 200 or 500, whose headers
contain `Content-Type: application/json` and
`Access-Control-Allow-Origin: *`, and whose body is JSON text — the
`json.dumps` serialization of some JSON value; being total, the model
raises no exception. -/
theorem C1_response_envelope (event : Event) (ctx : Option Context) (env : LambdaEnv) :
    ((lambda_handler event ctx env).statusCode = 200 ∨
      (lambda_handler event ctx env).statusCode = 500) ∧
    lookupKey (lambda_handler event ctx env).headers "Content-Type" =
      some "application/json" ∧
    lookupKey (lambda_handler event ctx env).headers "Access-Control-Allow-Origin" =
      some "*" ∧
    ∃ j ind, (lambda_handler event ctx env).body = json_dumps j ind := by
  refine ⟨?_, rfl, rfl,
    ⟨(handlerResult event ctx env).2,
     (if (handlerResult event ctx env).1 = 200 then some 2 else none), rfl⟩⟩
  show (handlerResult event ctx env).1 = 200 ∨ (handlerResult event ctx env).1 = 500
  unfold handlerResult
  cases validateEvent event with
  | error msg => exact Or.inr rfl
  | ok ve => exact Or.inl rfl

/-- C4: on every validated request the dispatcher has exactly two branches
selected by `operation`: `some "health"` produces the health diagnostic
body, and every other value (any other string, or explicit `None`) falls
through to the greeting branch with status 200 — the default, not an
error. -/
theorem C4_dispatch_two_branches (event : Event) (ctx : Option Context) (env : LambdaEnv)
    (ve : LambdaEvent) (h : validateEvent event = .ok ve) :
    (handlerResult event ctx env).1 = 200 ∧
    (handlerResult event ctx env).2 =
      (if ve.operation = some "health"
       then healthResponseBody env
       else greetingResponseBody ve ctx env) := by
  rw [handlerResult_ok ctx env h]
  exact ⟨rfl, rfl⟩

/-- C4 witness: an unrecognized operation string ("frobnicate") is
dispatched, with status 200, to the greeting branch. -/
theorem C4_dispatch_two_branches_witness :
    (handlerResult [("operation", Json.str "frobnicate")] (some ctx0) env0).1 = 200 ∧
    (handlerResult [("operation", Json.str "frobnicate")] (some ctx0) env0).2 =
      (if ({ name := some "World", operation := some "frobnicate",
             metadata := some [] } : LambdaEvent).operation = some "health"
       then healthResponseBody env0
       else greetingResponseBody
              { name := some "World", operation := some "frobnicate", metadata := some [] }
              (some ctx0) env0) :=
  C4_dispatch_two_branches [("operation", Json.str "frobnicate")] (some ctx0) env0
    { name := some "World", operation := some "frobnicate", metadata := some [] } rfl

/-- C5: when the `name` key is omitted, the greeting message is exactly
`"Hello, World!"`; when `name` is the string `"Alice"`, it is exactly
`"Hello, Alice!"`. -/
theorem C5_greeting_message (event : Event) (ctx : Option Context) (env : LambdaEnv)
    (ve : LambdaEvent) :
    (lookupKey event "name" = none → validateEvent event = .ok ve →
      ve.operation ≠ some "health" →
      (handlerResult event ctx env).2.lookup "message" = some (.str "Hello, World!")) ∧
    (lookupKey event "name" = some (.str "Alice") → validateEvent event = .ok ve →
      ve.operation ≠ some "health" →
      (handlerResult event ctx env).2.lookup "message" = some (.str "Hello, Alice!")) := by
  constructor
  · intro hn hok hop
    have hname : ve.name = some "World" := by
      have hv := (validateEvent_ok_fields hok).1
      rw [validateOptStr_absent _ _ _ hn] at hv
      exact (Except.ok.injEq _ _ ▸ hv).symm
    rw [handlerResult_ok ctx env hok]
    show (if ve.operation = some "health" then healthResponseBody env
          else greetingResponseBody ve ctx env).lookup "message" = _
    rw [if_neg hop, greeting_lookup_message, hname]
    rfl
  · intro hn hok hop
    have hname : ve.name = some "Alice" := by
      have hv := (validateEvent_ok_fields hok).1
      rw [validateOptStr_str _ _ _ _ hn] at hv
      exact (Except.ok.injEq _ _ ▸ hv).symm
    rw [handlerResult_ok ctx env hok]
    show (if ve.operation = some "health" then healthResponseBody env
          else greetingResponseBody ve ctx env).lookup "message" = _
    rw [if_neg hop, greeting_lookup_message, hname]
    rfl

/-- C5 witness: the empty event yields "Hello, World!" and the event
`{"name": "Alice"}` yields "Hello, Alice!". -/
theorem C5_greeting_message_witness :
    (handlerResult [] (some ctx0) env0).2.lookup "message" =
      some (.str "Hello, World!") ∧
    (handlerResult [("name", Json.str "Alice")] (some ctx0) env0).2.lookup "message" =
      some (.str "Hello, Alice!") :=
  ⟨(C5_greeting_message [] (some ctx0) env0
      { name := some "World", operation := some "greeting", metadata := some [] }).1
      rfl rfl (by decide),
   (C5_greeting_message [("name", Json.str "Alice")] (some ctx0) env0
      { name := some "Alice", operation := some "greeting", metadata := some [] }).2
      rfl rfl (by decide)⟩

/-- C6: with no context supplied, the greeting body's `function_name` is
`"lambda-test-python"` and its `request_id` is the freshly generated
identifier `str(uuid.uuid4())` drawn at line 125 (the later variant of the
claim); both fields are present strings, never null or missing. -/
theorem C6_no_context_defaults (event : Event) (env : LambdaEnv) (ve : LambdaEvent)
    (h : validateEvent event = .ok ve) (hop : ve.operation ≠ some "health") :
    (handlerResult event none env).2.lookup "function_name" =
      some (.str "lambda-test-python") ∧
    (handlerResult event none env).2.lookup "request_id" =
      some (.str env.freshUuid) := by
  rw [handlerResult_ok none env h]
  show ((if ve.operation = some "health" then healthResponseBody env
         else greetingResponseBody ve none env).lookup "function_name" = _) ∧
       ((if ve.operation = some "health" then healthResponseBody env
         else greetingResponseBody ve none env).lookup "request_id" = _)
  rw [if_neg hop]
  exact ⟨greeting_lookup_function_name ve none env, greeting_lookup_request_id ve none env⟩

/-- C6 witness: a concrete context-less invocation on the empty event. -/
theorem C6_no_context_defaults_witness :
    (handlerResult [] none env0).2.lookup "function_name" =
      some (.str "lambda-test-python") ∧
    (handlerResult [] none env0).2.lookup "request_id" =
      some (.str env0.freshUuid) :=
  C6_no_context_defaults [] env0
    { name := some "World", operation := some "greeting", metadata := some [] }
    rfl (by decide)

/-- C7: two invocations with the identical event and a context fixing
`aws_request_id` and `function_name` produce identical `message`,
`function_name` and `request_id` body fields, whatever the ambient state
(timestamps, uuids, health outcomes) of each run. -/
theorem C7_idempotent_fields (event : Event) (c : Context) (env1 env2 : LambdaEnv) :
    (handlerResult event (some c) env1).2.lookup "message" =
      (handlerResult event (some c) env2).2.lookup "message" ∧
    (handlerResult event (some c) env1).2.lookup "function_name" =
      (handlerResult event (some c) env2).2.lookup "function_name" ∧
    (handlerResult event (some c) env1).2.lookup "request_id" =
      (handlerResult event (some c) env2).2.lookup "request_id" := by
  cases h : validateEvent event with
  | error msg =>
    rw [handlerResult_error (some c) env1 h, handlerResult_error (some c) env2 h]
    exact ⟨rfl, rfl, rfl⟩
  | ok ve =>
    rw [handlerResult_ok (some c) env1 h, handlerResult_ok (some c) env2 h]
    by_cases hop : ve.operation = some "health"
    · simp only [if_pos hop]
      exact ⟨rfl, rfl, rfl⟩
    · simp only [if_neg hop]
      exact ⟨rfl, rfl, rfl⟩

/-- C8: `get_system_info` always returns a record and never raises: it is
either the full seven-field record — with the `"unknown"` sentinel
substituted for each unset environment variable — or, when the body
raises, the fallback record `{error: "Failed to retrieve system
information"}`. -/
theorem C8_system_info_total (env : SysEnv) :
    ∃ fs, get_system_info env = Json.obj fs ∧
      (fs = [("error", Json.str "Failed to retrieve system information")] ∨
       fs = [("timestamp_utc", Json.str env.timestampUtc),
             ("timestamp_local", Json.str env.timestampLocal),
             ("python_version", Json.str ("Python " ++ env.pythonVersion)),
             ("aws_region", Json.str (env.awsRegion.getD "unknown")),
             ("lambda_runtime", Json.str (env.lambdaRuntime.getD "unknown")),
             ("memory_size", Json.str (env.memorySize.getD "unknown")),
             ("request_id", Json.str env.sysRequestId)]) := by
  cases hok : env.ok with
  | false =>
    refine ⟨_, ?_, Or.inl rfl⟩
    unfold get_system_info
    rw [hok]
    rfl
  | true =>
    refine ⟨_, ?_, Or.inr rfl⟩
    unfold get_system_info
    rw [hok]
    rfl

/-- C9: a `name` key explicitly set to null validates to `None` (not to
the `"World"` default), so the greeting message is exactly
`"Hello, None!"` (Python interpolation of `None`); the `"World"` default
is applied exactly when the `name` key is absent. -/
theorem C9_explicit_null_name (event : Event) (ctx : Option Context) (env : LambdaEnv)
    (hn : lookupKey event "name" = some .null) :
    (∀ ve, validateEvent event = .ok ve → ve.name = none) ∧
    (∀ ve, validateEvent event = .ok ve → ve.operation ≠ some "health" →
      (handlerResult event ctx env).2.lookup "message" = some (.str "Hello, None!")) ∧
    (∀ ev2 : Event, ∀ ve2, lookupKey ev2 "name" = none → validateEvent ev2 = .ok ve2 →
      ve2.name = some "World") := by
  refine ⟨?_, ?_, ?_⟩
  · intro ve hok
    have hv := (validateEvent_ok_fields hok).1
    rw [validateOptStr_null _ _ _ hn] at hv
    exact (Except.ok.injEq _ _ ▸ hv).symm
  · intro ve hok hop
    have hname : ve.name = none := by
      have hv := (validateEvent_ok_fields hok).1
      rw [validateOptStr_null _ _ _ hn] at hv
      exact (Except.ok.injEq _ _ ▸ hv).symm
    rw [handlerResult_ok ctx env hok]
    show (if ve.operation = some "health" then healthResponseBody env
          else greetingResponseBody ve ctx env).lookup "message" = _
    rw [if_neg hop, greeting_lookup_message, hname]
    rfl
  · intro ev2 ve2 hn2 hok2
    have hv := (validateEvent_ok_fields hok2).1
    rw [validateOptStr_absent _ _ _ hn2] at hv
    exact (Except.ok.injEq _ _ ▸ hv).symm

/-- C9 witness: the event `{"name": null}` greets "Hello, None!", its
validated `name` field is `None`, and the empty event's validated `name`
field is the default `"World"`. -/
theorem C9_explicit_null_name_witness :
    (handlerResult [("name", Json.null)] (some ctx0) env0).2.lookup "message" =
      some (.str "Hello, None!") ∧
    ({ name := none, operation := some "greeting", metadata := some [] } :
      LambdaEvent).name = none ∧
    ({ name := some "World", operation := some "greeting", metadata := some [] } :
      LambdaEvent).name = some "World" :=
  ⟨(C9_explicit_null_name [("name", Json.null)] (some ctx0) env0 rfl).2.1
      { name := none, operation := some "greeting", metadata := some [] }
      rfl (by decide),
   (C9_explicit_null_name [("name", Json.null)] (some ctx0) env0 rfl).1
      { name := none, operation := some "greeting", metadata := some [] } rfl,
   (C9_explicit_null_name [("name", Json.null)] (some ctx0) env0 rfl).2.2 []
      { name := some "World", operation := some "greeting", metadata := some [] }
      rfl rfl⟩

/-- C10: every invocation dispatched to the health branch produces a body
with exactly the keys `message`, `health`, `system`, `version` — in
particular no `request_id`, `function_name`, `operation` or `metadata`
field, so the correlation identifier does not appear in the health body. -/
theorem C10_health_body_fields (event : Event) (ctx : Option Context) (env : LambdaEnv)
    (ve : LambdaEvent) (h : validateEvent event = .ok ve)
    (hop : ve.operation = some "health") :
    (handlerResult event ctx env).2.keys = ["message", "health", "system", "version"] ∧
    (handlerResult event ctx env).2.lookup "request_id" = none ∧
    (handlerResult event ctx env).2.lookup "function_name" = none ∧
    (handlerResult event ctx env).2.lookup "operation" = none ∧
    (handlerResult event ctx env).2.lookup "metadata" = none := by
  rw [handlerResult_ok ctx env h]
  show ((if ve.operation = some "health" then healthResponseBody env
         else greetingResponseBody ve ctx env).keys = _) ∧ _
  rw [if_pos hop]
  exact ⟨rfl, rfl, rfl, rfl, rfl⟩

/-- C10 witness: a concrete health invocation. -/
theorem C10_health_body_fields_witness :
    (handlerResult [("operation", Json.str "health")] (some ctx0) env0).2.keys =
      ["message", "health", "system", "version"] ∧
    (handlerResult [("operation", Json.str "health")] (some ctx0) env0).2.lookup
      "request_id" = none ∧
    (handlerResult [("operation", Json.str "health")] (some ctx0) env0).2.lookup
      "function_name" = none ∧
    (handlerResult [("operation", Json.str "health")] (some ctx0) env0).2.lookup
      "operation" = none ∧
    (handlerResult [("operation", Json.str "health")] (some ctx0) env0).2.lookup
      "metadata" = none :=
  C10_health_body_fields [("operation", Json.str "health")] (some ctx0) env0
    { name := some "World", operation := some "health", metadata := some [] } rfl rfl

/-- A concrete health-check run: AWS clients initialize, the S3 check
succeeds, the external-connectivity request raises a
`requests.RequestException` (e.g. a timeout). -/
def healthEnvExtFail : HealthEnv :=
  { clientsExn := none, s3Exn := none, ext := .reqExn "timeout" }

/-- C2 counterexample: when only the external-connectivity check fails,
its entry is the error string `"network_error: timeout"` (not
`"healthy"`), yet `healthy` remains true — so `healthy` is NOT the logical
AND over all recorded per-check statuses, and a failing check does not
always force `healthy` to false (lines 108–111 never touch `healthy`). -/
theorem C2_health_aggregation_counterexample :
    (perform_health_check healthEnvExtFail).healthy = true ∧
    lookupKey (perform_health_check healthEnvExtFail).checks "external_connectivity" =
      some "network_error: timeout" ∧
    "network_error: timeout" ≠ "healthy" :=
  ⟨rfl, rfl, by decide⟩

/-- C2 amended: `healthy` is true iff client initialization succeeds, the
`aws_s3` check succeeds, and no exception escapes the per-check handlers;
an `aws_s3` failure records an error entry and forces `healthy` to false
while the external check still runs; an external-connectivity failure
records an error entry without affecting `healthy`. -/
theorem C2_health_aggregation_amended (env : HealthEnv) :
    ((perform_health_check env).healthy = true ↔
      (env.clientsExn = none ∧ env.s3Exn = none ∧ env.ext.isOtherExn = false)) ∧
    (env.clientsExn = none → env.ext.isOtherExn = false →
      ∃ s, lookupKey (perform_health_check env).checks "external_connectivity" = some s) ∧
    (∀ e, env.clientsExn = none → env.s3Exn = some e →
      lookupKey (perform_health_check env).checks "aws_s3" = some ("error: " ++ e) ∧
      (perform_health_check env).healthy = false) := by
  obtain ⟨ce, se, ex⟩ := env
  cases ce <;> cases se <;> cases ex <;>
    simp [perform_health_check, ExtOutcome.isOtherExn, lookupKey]

/-- C2 amended witness: a run where the S3 check raises "boom" and the
external request returns status 200: the external entry is still
recorded, the `aws_s3` entry is the error string, and `healthy` is false. -/
theorem C2_health_aggregation_amended_witness :
    (∃ s, lookupKey (perform_health_check
        { clientsExn := none, s3Exn := some "boom", ext := .status 200 }).checks
        "external_connectivity" = some s) ∧
    lookupKey (perform_health_check
        { clientsExn := none, s3Exn := some "boom", ext := .status 200 }).checks
        "aws_s3" = some ("error: " ++ "boom") ∧
    (perform_health_check
        { clientsExn := none, s3Exn := some "boom", ext := .status 200 }).healthy = false :=
  ⟨(C2_health_aggregation_amended
      { clientsExn := none, s3Exn := some "boom", ext := .status 200 }).2.1 rfl rfl,
   (C2_health_aggregation_amended
      { clientsExn := none, s3Exn := some "boom", ext := .status 200 }).2.2 "boom" rfl rfl⟩

/-- The event whose `metadata` key is present with the (scalar) value
null. -/
def eventNullMetadata : Event := [("metadata", Json.null)]

/-- C3 counterexample: `metadata` present and not a mapping — explicit
null — yet the handler returns statusCode 200, not 500:
`Optional[Dict[str, Any]]` accepts `None`, so validation succeeds. -/
theorem C3_malformed_metadata_counterexample :
    lookupKey eventNullMetadata "metadata" = some Json.null ∧
    Json.null.isObj = false ∧
    (lambda_handler eventNullMetadata (some ctx0) env0).statusCode = 200 ∧
    (200 : Int) ≠ 500 :=
  ⟨rfl, rfl, rfl, by decide⟩

/-- C3 amended: for every event whose `metadata` is present and neither a
mapping nor null, the handler returns statusCode 500 with body fields
`error = "Internal server error"` and `request_id` equal to the
correlation identifier of that invocation (`context.aws_request_id` when a
context was supplied); the body is the compact `json.dumps` of that error
record. -/
theorem C3_malformed_metadata_amended (event : Event) (ctx : Option Context)
    (env : LambdaEnv) (j : Json) (h : lookupKey event "metadata" = some j)
    (hobj : j.isObj = false) (hnull : j.isNull = false) :
    (lambda_handler event ctx env).statusCode = 500 ∧
    (handlerResult event ctx env).2.lookup "error" =
      some (.str "Internal server error") ∧
    (handlerResult event ctx env).2.lookup "request_id" =
      some (.str (requestId ctx env)) ∧
    (∀ c, ctx = some c → requestId ctx env = c.aws_request_id) ∧
    (lambda_handler event ctx env).body = json_dumps (handlerResult event ctx env).2 none := by
  obtain ⟨msg, hmsg⟩ := validateEvent_metadata_bad h hobj hnull
  have hr := handlerResult_error ctx env hmsg
  have hstatus : (lambda_handler event ctx env).statusCode = (handlerResult event ctx env).1 := rfl
  have hbody : (lambda_handler event ctx env).body =
      json_dumps (handlerResult event ctx env).2
        (if (handlerResult event ctx env).1 = 200 then some 2 else none) := rfl
  refine ⟨?_, ?_, ?_, ?_, ?_⟩
  · rw [hstatus, hr]
  · rw [hr]
    exact error_lookup_error msg _
  · rw [hr]
    exact error_lookup_request_id msg _
  · intro c hc
    subst hc
    rfl
  · rw [hbody, hr]
    rfl

/-- C3 amended witness: the event `{"metadata": 5}` with a supplied
context. -/
theorem C3_malformed_metadata_amended_witness :
    (lambda_handler [("metadata", Json.num 5)] (some ctx0) env0).statusCode = 500 ∧
    (handlerResult [("metadata", Json.num 5)] (some ctx0) env0).2.lookup "error" =
      some (.str "Internal server error") ∧
    (handlerResult [("metadata", Json.num 5)] (some ctx0) env0).2.lookup "request_id" =
      some (.str (requestId (some ctx0) env0)) ∧
    (∀ c, (some ctx0 : Option Context) = some c →
      requestId (some ctx0) env0 = c.aws_request_id) ∧
    (lambda_handler [("metadata", Json.num 5)] (some ctx0) env0).body =
      json_dumps (handlerResult [("metadata", Json.num 5)] (some ctx0) env0).2 none :=
  C3_malformed_metadata_amended [("metadata", Json.num 5)] (some ctx0) env0
    (Json.num 5) rfl rfl rfl
